import Mathlib

/-!
The edge request handler of `src/index.js`.

A shallow embedding of `handleEvent`, `fetchUserInfo` and `fetchFlag`.

* JavaScript strings are Lean `String`s; `startsWith` and `split` are the
  string built-ins the handler uses, written over the character lists.
* The outside world (the key-value asset store behind `getAssetFromKV`, the
  outbound `fetch`, the clock, `String.prototype.toLowerCase`) is an explicit
  `World` of oracles; a thrown exception or rejected promise is `Except.error`.
* Every function returns an `Outcome`: the calls it made, in order, and its result.
-/

namespace WorkersAssignment

/-! ## Strings -/

/-- The method `s.startsWith(p)`. -/
def startsWith (s p : String) : Bool :=
  p.data.isPrefixOf s.data

/-- The scan of `String.prototype.split` for a non-empty separator: `skip` counts the
characters of a matched separator still to be dropped, `cur` is the current piece, reversed. -/
def splitGo (sep : List Char) : Nat → List Char → List Char → List (List Char)
  | _, cur, [] => [cur.reverse]
  | skip + 1, cur, _ :: t => splitGo sep skip cur t
  | 0, cur, c :: t =>
    if sep.isPrefixOf (c :: t) then cur.reverse :: splitGo sep (sep.length - 1) [] t
    else splitGo sep 0 (c :: cur) t

/-- The method `s.split(sep)`: the pieces of `s` between the successive, non-overlapping
occurrences of `sep`, found left to right; an empty separator splits into single characters. -/
def split (s sep : String) : List String :=
  if sep.data = [] then s.data.map (fun c => String.mk [c])
  else (splitGo sep.data 0 [] s.data).map String.mk

/-- A template literal renders `null` as the text "null". -/
def templateText : Option String → String
  | some s => s
  | none => "null"

/-- Substring containment: `sub` occurs in `s`. -/
def Contains (s sub : String) : Prop :=
  ∃ pre post : String, s = pre ++ sub ++ post

/-! ## Headers -/

/-- Header names are compared byte-case-insensitively. -/
def lowerName (n : String) : String :=
  String.mk (n.data.map Char.toLower)

/-- A `Headers` object: its header list, in order. -/
structure Headers where
  entries : List (String × String)
deriving DecidableEq, Repr

/-- Whether an entry carries the header `name`. -/
def sameName (name : String) (h : String × String) : Bool :=
  lowerName h.1 == lowerName name

/-- The method `headers.get(name)`: the values under `name`, joined by ", ", or `null`. -/
def Headers.get (hs : Headers) (name : String) : Option String :=
  match (hs.entries.filter (sameName name)).map Prod.snd with
  | [] => none
  | v :: vs => some (", ".intercalate (v :: vs))

/-- The replace-first-and-drop-the-rest step of `set`. -/
def setGo (name value : String) : List (String × String) → List (String × String)
  | [] => []
  | h :: t =>
    if sameName name h then (name, value) :: t.filter (fun x => !sameName name x)
    else h :: setGo name value t

/-- The method `headers.set(name, value)`: the first header of that name gets the value and the
others of that name are removed; when there is none the header is appended. -/
def Headers.set (hs : Headers) (name value : String) : Headers :=
  if hs.entries.any (sameName name) then ⟨setGo name value hs.entries⟩
  else ⟨hs.entries ++ [(name, value)]⟩

/-! ## Requests, responses, errors -/

/-- A parsed request URL (`new URL(request.url)`). -/
structure URL where
  origin : String
  pathname : String
  search : String
deriving DecidableEq, Repr

/-- The edge network's request metadata, `request.cf`. -/
structure Cf where
  country : Option String
deriving DecidableEq, Repr

/-- An incoming request. -/
structure Request where
  url : URL
  headers : Headers
  cf : Option Cf
deriving DecidableEq, Repr

/-- The fetch event handed to the handler. -/
structure FetchEvent where
  request : Request
deriving DecidableEq, Repr

/-- A `Response` object; `body` is the payload of its stream, `none` for a null body. -/
structure Response where
  status : Nat
  headers : Headers
  body : Option String
deriving DecidableEq, Repr

/-- The first argument of `new Response`. -/
inductive BodyInit
  | null
  | text (s : String)
  | stream (payload : String)
deriving DecidableEq, Repr

/-- The getter `response.body`: a stream, or null. -/
def Response.bodyInit (r : Response) : BodyInit :=
  match r.body with
  | none => .null
  | some p => .stream p

/-- The payload a body initialiser gives the response. -/
def BodyInit.payload : BodyInit → Option String
  | .null => none
  | .text s => some s
  | .stream p => some p

/-- The second argument of `new Response`. -/
structure ResponseInit where
  status : Option Nat
  headers : Option Headers
deriving DecidableEq, Repr

/-- The constructor `new Response(body, init)`: status 200 and no headers unless `init` says
otherwise; a text body without a `Content-Type` header gets the text/plain one. Every `init` the
handler passes has status 200, 404, 500 or that of an existing response, so the constructor's
range checks never fire. -/
def newResponse (body : BodyInit) (init : ResponseInit) : Response :=
  let status := init.status.getD 200
  let headers := init.headers.getD ⟨[]⟩
  let headers :=
    match body with
    | .text _ =>
      if headers.entries.any (sameName "Content-Type") then headers
      else ⟨headers.entries ++ [("Content-Type", "text/plain;charset=UTF-8")]⟩
    | _ => headers
  { status := status, headers := headers, body := body.payload }

/-- What kind of exception was thrown; the handler never looks at it. -/
inductive ErrorClass
  | notFound
  | methodNotAllowed
  | internal
  | typeError
  | other
deriving DecidableEq, Repr

/-- A thrown `Error`: its class, `e.message` and `e.toString()`. -/
structure JsError where
  cls : ErrorClass
  message : String
  str : String
deriving DecidableEq, Repr

/-- The `TypeError` of reading property `prop` of `undefined`. -/
def typeErrorReading (prop : String) : JsError :=
  { cls := .typeError,
    message := "Cannot read properties of undefined (reading \x27" ++ prop ++ "\x27)",
    str := "TypeError: Cannot read properties of undefined (reading \x27" ++ prop ++ "\x27)" }

/-! ## The outside world and the call trace -/

/-- The handler's environment. `assetStore request bypassCache assetRequest` is the outcome of
the asset lookup for the event's request, `assetRequest` being the request a custom
`mapRequestToAsset` produced (`none`: the library's default mapping); `ownProps` says whether the
platform exposes a response's fields as own enumerable properties, which object spread copies. -/
structure World where
  toLowerCase : String → String
  now : String
  assetStore : Request → Bool → Option Request → Except JsError Response
  fetch : String → Except JsError Response
  ownProps : Bool

/-- A call made while handling a request. -/
inductive Event
  | fetchUserInfo (request : Request)
  | fetchFlag (country : Option String)
  | getAssetFromKV (request : Request) (bypassCache : Bool) (assetRequest : Option Request)
  | fetch (url : String)
deriving DecidableEq, Repr

/-- The calls made, in order, and the value returned or the exception thrown. -/
structure Outcome where
  trace : List Event
  result : Except JsError Response

/-- The options object of `getAssetFromKV`. -/
structure Options where
  bypassCache : Bool
  mapRequestToAsset : Option (Request → Request)

/-- The library call `getAssetFromKV(event, options)`: it maps the event's request with the
custom mapper when one is given and looks the asset up. -/
def getAssetFromKV (w : World) (event : FetchEvent) (options : Options) : Outcome :=
  let assetRequest := options.mapRequestToAsset.map (fun f => f event.request)
  { trace := [Event.getAssetFromKV event.request options.bypassCache assetRequest],
    result := w.assetStore event.request options.bypassCache assetRequest }

/-- Whether a recorded call to the outside world failed: a lookup that threw, a fetch that threw
or answered with a status other than 200. -/
def Event.failed (w : World) : Event → Bool
  | .getAssetFromKV request bypassCache assetRequest =>
    match w.assetStore request bypassCache assetRequest with
    | .ok _ => false
    | .error _ => true
  | .fetch url =>
    match w.fetch url with
    | .ok r => r.status != 200
    | .error _ => true
  | _ => false

/-! ## The handler -/

/-- The constant `DEBUG`. -/
def DEBUG : Bool := false

/-- The object-storage prefix of the flag images. -/
def flagHost : String := "https://pub-a0f085f9f9a74647b5b726dd329ccbdd.r2.dev/"

/-- The flag image URL for an already lower-cased country code. -/
def flagUrl (lower : String) : String :=
  flagHost ++ lower ++ ".png"

/-- The identity page's template, up to the email. -/
def pageHead : String :=
  "\n" ++
  "    <!DOCTYPE html>\n" ++
  "    <html>\n" ++
  "      <head>\n" ++
  "        <style>\n" ++
  "          body \x7b\n" ++
  "            font-family: Arial, sans-serif;\n" ++
  "            text-align: center;\n" ++
  "            margin-top: 50px;\n" ++
  "          \x7d\n" ++
  "          .container \x7b\n" ++
  "            display: flex;\n" ++
  "            flex-direction: column;\n" ++
  "            align-items: center;\n" ++
  "          \x7d\n" ++
  "          .flag \x7b\n" ++
  "            margin-top: 20px;\n" ++
  "            width: 50px;\n" ++
  "            height: 50px;\n" ++
  "            \x7d\n" ++
  "        </style>\n" ++
  "      </head>\n" ++
  "      <body>\n" ++
  "        <div class=\"container\">\n" ++
  "          <div>\n" ++
  "            <img src=\"https://wisecloud.stream/wp-content/uploads/2024/05/cloudflare_icon_146206.png\" alt=\"Logo\" width=\"120\" height=\"120\">\n" ++
  "          </div>\n" ++
  "          <div>\n" ++
  "            <p>...And we don\x27t just meet expectations, we exceed them.</p>\n" ++
  "            <p><a href=\"/\">Home</a></p>\n" ++
  "          </div>\n" ++
  "          <div>\n" ++
  "            <p>"

/-- The identity page's template, after the flag URL. -/
def pageTail : String :=
  "\" alt=\"Flag\" class=\"flag\">\n" ++
  "          </div>\n" ++
  "        </div>\n" ++
  "      </body>\n" ++
  "    </html>\n" ++
  "  "

/-- The identity page: the template literal of `fetchUserInfo`, `lower` being
`country.toLowerCase()`. -/
def identityPage (email : Option String) (timestamp lower : String) : String :=
  pageHead ++ templateText email ++ " authenticated at " ++ timestamp ++ " from</p>\n" ++
  "            <img src=\"" ++ flagUrl lower ++ pageTail

/-- The function `fetchUserInfo(request)`. Reading `request.cf.country` without `cf`, or calling
`toLowerCase` on a missing country, throws. -/
def fetchUserInfo (w : World) (request : Request) : Outcome :=
  let email := request.headers.get "cf-access-authenticated-user-email"
  match request.cf with
  | none => { trace := [], result := .error (typeErrorReading "country") }
  | some cf =>
    let country := cf.country
    let timestamp := w.now
    match country with
    | none => { trace := [], result := .error (typeErrorReading "toLowerCase") }
    | some c =>
      { trace := [],
        result := .ok (newResponse (.text (identityPage email timestamp (w.toLowerCase c)))
          { status := none, headers := some ⟨[("Content-Type", "text/html")]⟩ }) }

/-- The function `fetchFlag(country)`. The URL is built outside the `try`, so an undefined
`country` throws; everything after it is caught. -/
def fetchFlag (w : World) (country : Option String) : Outcome :=
  match country with
  | none => { trace := [], result := .error (typeErrorReading "toLowerCase") }
  | some c =>
    let url := flagUrl (w.toLowerCase c)
    match w.fetch url with
    | .ok response =>
      if response.status = 200 then
        { trace := [Event.fetch url],
          result := .ok (newResponse response.bodyInit
            { status := none, headers := some ⟨[("Content-Type", "image/png")]⟩ }) }
      else
        { trace := [Event.fetch url],
          result := .ok (newResponse (.text "Flag not found")
            { status := some 404, headers := none }) }
    | .error _ =>
      { trace := [Event.fetch url],
        result := .ok (newResponse (.text "Error fetching flag")
          { status := some 500, headers := none }) }

/-- The custom mapper of the fallback lookup: the same request, aimed at `<origin>/404.html`. -/
def notFoundMapper (req : Request) : Request :=
  { req with url := { origin := req.url.origin, pathname := "/404.html", search := "" } }

/-- The object `{...notFoundResponse, status: 404}`. -/
def spread404 (w : World) (notFoundResponse : Response) : ResponseInit :=
  { status := some 404,
    headers := if w.ownProps then some notFoundResponse.headers else none }

/-- The expression `e.message || e.toString()`. -/
def errorText (e : JsError) : String :=
  if e.message = "" then e.str else e.message

/-- The five `response.headers.set` calls of the asset path. -/
def setSecurityHeaders (hs : Headers) : Headers :=
  ((((hs.set "X-XSS-Protection" "1; mode=block").set "X-Content-Type-Options" "nosniff").set
    "X-Frame-Options" "DENY").set "Referrer-Policy" "unsafe-url").set "Feature-Policy" "none"

/-- The function `handleEvent(event)`. -/
def handleEvent (w : World) (event : FetchEvent) : Outcome :=
  let pathname := event.request.url.pathname
  if startsWith pathname "/secure" then
    if pathname = "/secure" ∨ pathname = "/secure/" then
      let o := fetchUserInfo w event.request
      { trace := Event.fetchUserInfo event.request :: o.trace, result := o.result }
    else
      let country := (split pathname "/secure/")[1]?
      let o := fetchFlag w country
      { trace := Event.fetchFlag country :: o.trace, result := o.result }
  else
    let options : Options :=
      if DEBUG then { bypassCache := true, mapRequestToAsset := none }
      else { bypassCache := false, mapRequestToAsset := none }
    let first := getAssetFromKV w event options
    match first.result with
    | .ok page =>
      let response := newResponse page.bodyInit
        { status := some page.status, headers := some page.headers }
      { trace := first.trace,
        result := .ok { response with headers := setSecurityHeaders response.headers } }
    | .error e =>
      if !DEBUG then
        let second := getAssetFromKV w event
          { bypassCache := false, mapRequestToAsset := some notFoundMapper }
        match second.result with
        | .ok notFoundResponse =>
          { trace := first.trace ++ second.trace,
            result := .ok (newResponse notFoundResponse.bodyInit (spread404 w notFoundResponse)) }
        | .error _ =>
          { trace := first.trace ++ second.trace,
            result := .ok (newResponse (.text (errorText e)) { status := some 500, headers := none }) }
      else
        { trace := first.trace,
          result := .ok (newResponse (.text (errorText e)) { status := some 500, headers := none }) }

/-- The lower-cased names of the five security headers. -/
def securityNames : List String :=
  ["x-xss-protection", "x-content-type-options", "x-frame-options", "referrer-policy",
   "feature-policy"]

/-! ## Concrete worlds and requests -/

/-- ASCII lower-casing, the behaviour of `toLowerCase` on the strings used below. -/
def asciiLower (s : String) : String :=
  String.mk (s.data.map Char.toLower)

/-- A request for `pathname` on `https://example.com`. -/
def mkRequest (pathname : String) (email : Option String) (cf : Option Cf) : Request :=
  { url := { origin := "https://example.com", pathname := pathname, search := "" },
    headers := ⟨match email with
      | some v => [("cf-access-authenticated-user-email", v)]
      | none => []⟩,
    cf := cf }

/-- An asset as the store serves it. -/
def htmlAsset (payload : String) : Response :=
  { status := 200, headers := ⟨[("content-type", "text/html"), ("x-frame-options", "SAMEORIGIN")]⟩,
    body := some payload }

/-- The not-found miss of the asset store. -/
def notFoundError : JsError :=
  { cls := .notFound, message := "could not find missing.html in your content namespace",
    str := "KVError: could not find missing.html in your content namespace" }

/-- An internal error of the asset store. -/
def internalError : JsError :=
  { cls := .internal, message := "there is no KV namespace bound to the script",
    str := "KVError: there is no KV namespace bound to the script" }

/-- A network failure of the outbound fetch. -/
def networkError : JsError :=
  { cls := .other, message := "Network connection lost.", str := "Error: Network connection lost." }

/-- A world whose store holds `/index.html` and `/404.html`, whose default lookup of any other path
misses, and whose flag store holds only `de.png`. -/
def siteWorld : World :=
  { toLowerCase := asciiLower,
    now := "2024-05-20T10:00:00.000Z",
    assetStore := fun request _ assetRequest =>
      match assetRequest with
      | some r => if r.url.pathname = "/404.html" then .ok (htmlAsset "<h1>404</h1>")
                  else .error notFoundError
      | none => if request.url.pathname = "/index.html" then .ok (htmlAsset "<h1>home</h1>")
                else .error notFoundError,
    fetch := fun url =>
      if url = "https://pub-a0f085f9f9a74647b5b726dd329ccbdd.r2.dev/de.png" then
        .ok { status := 200, headers := ⟨[]⟩, body := some "PNG" }
      else .ok { status := 404, headers := ⟨[]⟩, body := some "missing" },
    ownProps := false }

/-- The `URIError` of `decodeURIComponent` on a malformed escape sequence. -/
def uriError : JsError :=
  { cls := .other, message := "URI malformed", str := "URIError: URI malformed" }

/-- A world like `siteWorld` whose default lookup cannot decode the path "/%E0%A4%A" and throws
a `URIError`; the custom-mapped lookup of `/404.html` does no decoding and succeeds. -/
def brokenWorld : World :=
  { siteWorld with
    assetStore := fun request _ assetRequest =>
      match assetRequest with
      | some r => if r.url.pathname = "/404.html" then .ok (htmlAsset "<h1>404</h1>")
                  else .error notFoundError
      | none => if request.url.pathname = "/%E0%A4%A" then .error uriError
                else .error notFoundError }

/-- A world where every lookup and every fetch throws. -/
def downWorld : World :=
  { siteWorld with
    assetStore := fun _ _ assetRequest =>
      match assetRequest with
      | some _ => .error internalError
      | none => .error internalError,
    fetch := fun _ => .error networkError }

/-- A world like `downWorld` whose fallback lookup fails with a network error instead. -/
def offlineWorld : World :=
  { downWorld with
    assetStore := fun _ _ assetRequest =>
      match assetRequest with
      | some _ => .error networkError
      | none => .error internalError }

/-! ## Lemmas on strings -/

theorem startsWith_iff (s p : String) : startsWith s p = true ↔ p.data <+: s.data := by
  unfold startsWith
  exact List.isPrefixOf_iff_prefix

theorem startsWith_secure_of_slash (p : String) (h : startsWith p "/secure/" = true) :
    startsWith p "/secure" = true := by
  rw [startsWith_iff] at *
  exact List.IsPrefix.trans ⟨['/'], rfl⟩ h

theorem splitGo_ne_nil (sep : List Char) :
    ∀ (s : List Char) (k : Nat) (cur : List Char), splitGo sep k cur s ≠ [] := by
  intro s
  induction s with
  | nil => intro k cur; cases k <;> simp [splitGo]
  | cons c t ih =>
    intro k cur
    cases k with
    | zero =>
      simp only [splitGo]
      split
      · simp
      · exact ih 0 (c :: cur)
    | succ k => simp only [splitGo]; exact ih k cur

theorem split_second_isSome (s sep : String) (hsep : sep.data ≠ [])
    (h : startsWith s sep = true) : ∃ c, (split s sep)[1]? = some c := by
  unfold split
  rw [if_neg hsep]
  unfold startsWith at h
  cases hs : s.data with
  | nil =>
    rw [hs] at h
    cases hd : sep.data with
    | nil => exact absurd hd hsep
    | cons a l => rw [hd] at h; simp [List.isPrefixOf] at h
  | cons c t =>
    rw [hs] at h
    simp only [splitGo, h, if_true]
    cases hg : splitGo sep.data (sep.data.length - 1) [] t with
    | nil => exact absurd hg (splitGo_ne_nil _ _ _ _)
    | cons x xs => exact ⟨String.mk x, by simp⟩

theorem splitGo_of_no_occurrence (sep : List Char) :
    ∀ (r cur : List Char), (∀ pre post : List Char, r ≠ pre ++ sep ++ post) →
      splitGo sep 0 cur r = [cur.reverse ++ r] := by
  intro r
  induction r with
  | nil => intro cur _; simp [splitGo]
  | cons c t ih =>
    intro cur hno
    have hpre : sep.isPrefixOf (c :: t) = false := by
      cases hp : sep.isPrefixOf (c :: t) with
      | false => rfl
      | true =>
        obtain ⟨post, hpost⟩ := List.isPrefixOf_iff_prefix.mp hp
        exact absurd (by simpa using hpost.symm) (hno [] post)
    have ht : ∀ pre post : List Char, t ≠ pre ++ sep ++ post := by
      intro pre post heq
      exact hno (c :: pre) post (by simp [heq])
    simp only [splitGo, hpre, Bool.false_eq_true, if_false]
    rw [ih (c :: cur) ht]
    simp

/-- When the remainder after the leading "/secure/" holds no further "/secure/", the second
piece of the split is that whole remainder. -/
theorem split_secure_remainder (rest : String) (hno : ¬ Contains rest "/secure/") :
    (split ("/secure/" ++ rest) "/secure/")[1]? = some rest := by
  have hno2 : ∀ pre post : List Char, rest.data ≠ pre ++ "/secure/".data ++ post := by
    intro pre post heq
    apply hno
    refine ⟨String.mk pre, String.mk post, ?_⟩
    apply String.ext
    simpa using heq
  have hd : ("/secure/" ++ rest).data =
      '/' :: (['s', 'e', 'c', 'u', 'r', 'e', '/'] ++ rest.data) := by
    simp [String.data_append]
  have hsep : "/secure/".data = ['/', 's', 'e', 'c', 'u', 'r', 'e', '/'] := rfl
  have hpre : List.isPrefixOf ['/', 's', 'e', 'c', 'u', 'r', 'e', '/']
      ('/' :: (['s', 'e', 'c', 'u', 'r', 'e', '/'] ++ rest.data)) = true := by
    simp [List.isPrefixOf]
  unfold split
  rw [if_neg (by decide), hd, hsep]
  rw [hsep] at hno2
  simp only [splitGo, hpre, if_true]
  have happ : ([] : List Char).append rest.data = rest.data := rfl
  rw [happ, splitGo_of_no_occurrence _ _ _ hno2]
  simp

/-! ## Lemmas on headers -/

theorem sameName_self (name value : String) : sameName name (name, value) = true := by
  simp [sameName]

theorem filter_setGo_same (m v : String) :
    ∀ hs : List (String × String), hs.any (sameName m) = true →
      (setGo m v hs).filter (sameName m) = [(m, v)] := by
  intro hs
  induction hs with
  | nil => simp
  | cons h t ih =>
    intro hany
    by_cases hh : sameName m h = true
    · simp only [setGo, hh, if_true, List.filter_cons, sameName_self, List.filter_filter]
      simp
    · have hany2 : t.any (sameName m) = true := by
        simp only [List.any_cons, Bool.or_eq_true] at hany
        exact hany.resolve_left hh
      have hgo : setGo m v (h :: t) = h :: setGo m v t := by simp [setGo, hh]
      rw [hgo, List.filter_cons, if_neg hh]
      exact ih hany2

theorem filter_setGo_other (m v n : String) (hne : lowerName n ≠ lowerName m) :
    ∀ hs : List (String × String),
      (setGo m v hs).filter (sameName n) = hs.filter (sameName n) := by
  have hmv : sameName n (m, v) = false := by
    simp only [sameName, beq_eq_false_iff_ne, ne_eq]
    exact fun h => hne h.symm
  have hexcl : ∀ x : String × String, sameName m x = true → sameName n x = false := by
    intro x hx
    simp only [sameName, beq_iff_eq, beq_eq_false_iff_ne, ne_eq] at *
    rw [hx]
    exact fun h => hne h.symm
  intro hs
  induction hs with
  | nil => simp [setGo]
  | cons h t ih =>
    by_cases hh : sameName m h = true
    · simp only [setGo, hh, if_true, List.filter_cons, hmv, hexcl h hh, List.filter_filter]
      simp only [Bool.false_eq_true, if_false]
      apply List.filter_congr
      intro x _
      by_cases hx : sameName m x = true
      · simp [hx, hexcl x hx]
      · simp [hx]
    · have hgo : setGo m v (h :: t) = h :: setGo m v t := by simp [setGo, hh]
      rw [hgo, List.filter_cons, List.filter_cons, ih]

theorem Headers.get_set (hs : Headers) (m v n : String) :
    (hs.set m v).get n = if lowerName n = lowerName m then some v else hs.get n := by
  by_cases hnm : lowerName n = lowerName m
  · have hfun : sameName n = sameName m := by
      funext x
      simp [sameName, hnm]
    rw [if_pos hnm]
    unfold Headers.get Headers.set
    rw [hfun]
    by_cases hany : hs.entries.any (sameName m) = true
    · rw [if_pos hany]
      simp only [filter_setGo_same m v hs.entries hany]
      simp [String.intercalate, String.intercalate.go]
    · rw [if_neg hany]
      have hnone : hs.entries.filter (sameName m) = [] := by
        rw [List.filter_eq_nil_iff]
        intro x hx hsx
        exact hany (List.any_eq_true.mpr ⟨x, hx, hsx⟩)
      simp only [List.filter_append, hnone, List.nil_append, List.filter_cons, sameName_self]
      simp [String.intercalate, String.intercalate.go]
  · rw [if_neg hnm]
    unfold Headers.get Headers.set
    have hmv : sameName n (m, v) = false := by
      simp only [sameName, beq_eq_false_iff_ne, ne_eq]
      exact fun h => hnm h.symm
    by_cases hany : hs.entries.any (sameName m) = true
    · rw [if_pos hany]
      simp only [filter_setGo_other m v n hnm]
    · rw [if_neg hany]
      simp only [List.filter_append, List.filter_cons, hmv, List.filter_nil, List.append_nil]
      simp

/-! ## Lemmas on the handler -/

theorem handleEvent_static (w : World) (event : FetchEvent)
    (h : startsWith event.request.url.pathname "/secure" = false) :
    handleEvent w event =
      match w.assetStore event.request false none with
      | .ok page =>
        { trace := [Event.getAssetFromKV event.request false none],
          result := .ok { status := page.status, headers := setSecurityHeaders page.headers,
                          body := page.body } }
      | .error e =>
        match w.assetStore event.request false (some (notFoundMapper event.request)) with
        | .ok nf =>
          { trace := [Event.getAssetFromKV event.request false none,
                      Event.getAssetFromKV event.request false (some (notFoundMapper event.request))],
            result := .ok { status := 404,
                            headers := if w.ownProps then nf.headers else ⟨[]⟩,
                            body := nf.body } }
        | .error _ =>
          { trace := [Event.getAssetFromKV event.request false none,
                      Event.getAssetFromKV event.request false (some (notFoundMapper event.request))],
            result := .ok { status := 500,
                            headers := ⟨[("Content-Type", "text/plain;charset=UTF-8")]⟩,
                            body := some (errorText e) } } := by
  unfold handleEvent
  simp only [h, Bool.false_eq_true, if_false, DEBUG, getAssetFromKV, Option.map_none',
    Option.map_some', Bool.not_false, if_true]
  cases h1 : w.assetStore event.request false none with
  | ok page =>
    cases hb : page.body <;>
      simp [newResponse, Response.bodyInit, BodyInit.payload, hb]
  | error e =>
    cases h2 : w.assetStore event.request false (some (notFoundMapper event.request)) with
    | ok nf =>
      cases hb : nf.body <;> cases ho : w.ownProps <;>
        simp [newResponse, Response.bodyInit, BodyInit.payload, spread404, hb, ho]
    | error e2 =>
      simp [newResponse, BodyInit.payload, sameName]

theorem handleEvent_identity (w : World) (event : FetchEvent)
    (h : event.request.url.pathname = "/secure" ∨ event.request.url.pathname = "/secure/") :
    handleEvent w event =
      { trace := Event.fetchUserInfo event.request :: (fetchUserInfo w event.request).trace,
        result := (fetchUserInfo w event.request).result } := by
  have hs : startsWith event.request.url.pathname "/secure" = true := by
    rcases h with h | h <;> rw [h] <;> decide
  unfold handleEvent
  simp only [hs, if_true, h]

theorem handleEvent_flag (w : World) (event : FetchEvent)
    (hs : startsWith event.request.url.pathname "/secure" = true)
    (h1 : event.request.url.pathname ≠ "/secure")
    (h2 : event.request.url.pathname ≠ "/secure/") :
    handleEvent w event =
      { trace := Event.fetchFlag (split event.request.url.pathname "/secure/")[1]? ::
          (fetchFlag w (split event.request.url.pathname "/secure/")[1]?).trace,
        result := (fetchFlag w (split event.request.url.pathname "/secure/")[1]?).result } := by
  unfold handleEvent
  simp only [hs, if_true, h1, h2, or_self, if_false]

theorem fetchFlag_some (w : World) (c : String) :
    fetchFlag w (some c) =
      { trace := [Event.fetch (flagUrl (w.toLowerCase c))],
        result :=
          match w.fetch (flagUrl (w.toLowerCase c)) with
          | .ok up =>
            if up.status = 200 then
              .ok { status := 200, headers := ⟨[("Content-Type", "image/png")]⟩, body := up.body }
            else
              .ok { status := 404, headers := ⟨[("Content-Type", "text/plain;charset=UTF-8")]⟩,
                    body := some "Flag not found" }
          | .error _ =>
            .ok { status := 500, headers := ⟨[("Content-Type", "text/plain;charset=UTF-8")]⟩,
                  body := some "Error fetching flag" } } := by
  unfold fetchFlag
  cases hf : w.fetch (flagUrl (w.toLowerCase c)) with
  | ok up =>
    by_cases hst : up.status = 200
    · cases hb : up.body <;>
        simp [hf, hst, newResponse, Response.bodyInit, BodyInit.payload, hb]
    · simp [hf, hst, newResponse, BodyInit.payload, sameName]
  | error e => simp [hf, newResponse, BodyInit.payload, sameName]

/-- The flag route on its intended inputs: for the pathname "/secure/" followed by a non-empty
remainder that holds no further "/secure/", `handleEvent` calls `fetchFlag` with that remainder. -/
theorem handleEvent_flag_country (w : World) (event : FetchEvent) (rest : String)
    (hp : event.request.url.pathname = "/secure/" ++ rest) (hne : rest ≠ "")
    (hno : ¬ Contains rest "/secure/") :
    (handleEvent w event).trace.head? = some (Event.fetchFlag (some rest)) := by
  have hs : startsWith event.request.url.pathname "/secure/" = true := by
    rw [hp, startsWith_iff]
    exact ⟨rest.data, by simp [String.data_append]⟩
  have h2 : event.request.url.pathname ≠ "/secure/" := by
    rw [hp]
    intro heq
    apply hne
    have hdata := congrArg String.data heq
    apply String.ext
    simpa [String.data_append] using hdata
  have h1 : event.request.url.pathname ≠ "/secure" := by
    intro heq
    rw [heq] at hs
    exact absurd hs (by decide)
  rw [handleEvent_flag w event (startsWith_secure_of_slash _ hs) h1 h2, hp,
    split_secure_remainder rest hno]
  rfl

/-! ## The claims -/

/-- C1, as amended: for every request whose pathname does not start with "/secure", or starts
with "/secure/" without being "/secure/" itself, or is exactly "/secure" or "/secure/" with the
geolocation country present, and for every outcome of the asset lookups and of the flag fetch,
`handleEvent` returns a response, and when a lookup or the fetch failed that response has status
500 or 404. -/
theorem handleEvent_returns (w : World) (event : FetchEvent)
    (h : startsWith event.request.url.pathname "/secure" = false ∨
      (startsWith event.request.url.pathname "/secure/" = true ∧
        event.request.url.pathname ≠ "/secure/") ∨
      ((event.request.url.pathname = "/secure" ∨ event.request.url.pathname = "/secure/") ∧
        ∃ cf c, event.request.cf = some cf ∧ cf.country = some c)) :
    ∃ r, (handleEvent w event).result = .ok r ∧
      ((∃ x ∈ (handleEvent w event).trace, x.failed w = true) → r.status = 500 ∨ r.status = 404) := by
  rcases h with h | ⟨hs, hne⟩ | ⟨hp, cf, c, hcf, hc⟩
  · rw [handleEvent_static w event h]
    cases h1 : w.assetStore event.request false none with
    | ok page =>
      refine ⟨_, rfl, ?_⟩
      rintro ⟨x, hx, hf⟩
      simp only [List.mem_singleton] at hx
      subst hx
      simp [Event.failed, h1] at hf
    | error e =>
      cases h2 : w.assetStore event.request false (some (notFoundMapper event.request)) with
      | ok nf => exact ⟨_, rfl, fun _ => Or.inr rfl⟩
      | error e2 => exact ⟨_, rfl, fun _ => Or.inl rfl⟩
  · have hne1 : event.request.url.pathname ≠ "/secure" := by
      intro heq
      rw [heq] at hs
      exact absurd hs (by decide)
    rw [handleEvent_flag w event (startsWith_secure_of_slash _ hs) hne1 hne]
    obtain ⟨c, hc⟩ := split_second_isSome event.request.url.pathname "/secure/" (by decide) hs
    rw [hc, fetchFlag_some]
    cases hf : w.fetch (flagUrl (w.toLowerCase c)) with
    | ok up =>
      by_cases hst : up.status = 200
      · simp only [hst, if_true]
        refine ⟨_, rfl, ?_⟩
        rintro ⟨x, hx, hfail⟩
        simp only [List.mem_cons, List.mem_singleton, List.not_mem_nil, or_false] at hx
        rcases hx with hx | hx <;> subst hx
        · simp [Event.failed] at hfail
        · simp [Event.failed, hf, hst] at hfail
      · simp only [hst, if_false]
        exact ⟨_, rfl, fun _ => Or.inr rfl⟩
    | error e => exact ⟨_, rfl, fun _ => Or.inl rfl⟩
  · rw [handleEvent_identity w event hp]
    simp only [fetchUserInfo, hcf, hc]
    refine ⟨_, rfl, ?_⟩
    rintro ⟨x, hx, hfail⟩
    simp only [List.mem_singleton] at hx
    subst hx
    simp [Event.failed] at hfail

/-- C1, a witness: a request for "/secure/zz", whose flag the store does not hold. -/
theorem handleEvent_returns_witness :
    ∃ r, (handleEvent siteWorld ⟨mkRequest "/secure/zz" none none⟩).result = .ok r ∧
      ((∃ x ∈ (handleEvent siteWorld ⟨mkRequest "/secure/zz" none none⟩).trace,
          x.failed siteWorld = true) → r.status = 500 ∨ r.status = 404) :=
  handleEvent_returns siteWorld ⟨mkRequest "/secure/zz" none none⟩
    (Or.inr (Or.inl ⟨by decide, by decide⟩))

/-- C1, as stated, fails: a request for "/secure" whose geolocation metadata holds no country
makes `handleEvent` throw a `TypeError` instead of returning a response. -/
theorem handleEvent_throws_without_country :
    (handleEvent siteWorld
        ⟨mkRequest "/secure" (some "user@example.com") (some ⟨none⟩)⟩).result =
        .error (typeErrorReading "toLowerCase") ∧
      ¬ ∃ r, (handleEvent siteWorld
        ⟨mkRequest "/secure" (some "user@example.com") (some ⟨none⟩)⟩).result = .ok r := by
  constructor
  · rfl
  · rintro ⟨r, hr⟩
    have h : (handleEvent siteWorld
        ⟨mkRequest "/secure" (some "user@example.com") (some ⟨none⟩)⟩).result =
        .error (typeErrorReading "toLowerCase") := rfl
    rw [h] at hr
    cases hr

/-- C2, at the failing input: for the pathname "/secure/a/secure/b" `handleEvent` calls
`fetchFlag` with the country "a" and fetches the flag "a.png"; it never passes the whole
remainder "a/secure/b". -/
theorem handleEvent_nested_secure_country :
    (handleEvent siteWorld ⟨mkRequest "/secure/a/secure/b" none none⟩).trace =
        [Event.fetchFlag (some "a"),
         Event.fetch "https://pub-a0f085f9f9a74647b5b726dd329ccbdd.r2.dev/a.png"] ∧
      Event.fetchFlag (some "a/secure/b") ∉
        (handleEvent siteWorld ⟨mkRequest "/secure/a/secure/b" none none⟩).trace := by
  decide

/-- C3, at the failing input: for the pathname "/secured" `handleEvent` performs no asset-store
lookup; it calls `fetchFlag` with an undefined country and throws a `TypeError`. -/
theorem handleEvent_secured_throws :
    (handleEvent siteWorld ⟨mkRequest "/secured" none none⟩).trace = [Event.fetchFlag none] ∧
      (handleEvent siteWorld ⟨mkRequest "/secured" none none⟩).result =
        .error (typeErrorReading "toLowerCase") := by
  constructor
  · decide
  · rfl

/-- C4: for every pathname that does not start with "/secure", `handleEvent` first looks the
request up in the asset store, with the default options, and calls neither `fetchUserInfo` nor
`fetchFlag` and issues no outbound fetch. -/
theorem handleEvent_static_of_not_secure (w : World) (event : FetchEvent)
    (h : startsWith event.request.url.pathname "/secure" = false) :
    (handleEvent w event).trace.head? = some (Event.getAssetFromKV event.request false none) ∧
      (∀ r, Event.fetchUserInfo r ∉ (handleEvent w event).trace) ∧
      (∀ c, Event.fetchFlag c ∉ (handleEvent w event).trace) ∧
      (∀ u, Event.fetch u ∉ (handleEvent w event).trace) := by
  rw [handleEvent_static w event h]
  cases h1 : w.assetStore event.request false none with
  | ok page => simp
  | error e =>
    cases h2 : w.assetStore event.request false (some (notFoundMapper event.request)) <;> simp

/-- C4, a witness: a request for "/index.html". -/
theorem handleEvent_static_of_not_secure_witness :
    (handleEvent siteWorld ⟨mkRequest "/index.html" none none⟩).trace.head? =
        some (Event.getAssetFromKV (mkRequest "/index.html" none none) false none) ∧
      (∀ r, Event.fetchUserInfo r ∉
        (handleEvent siteWorld ⟨mkRequest "/index.html" none none⟩).trace) ∧
      (∀ c, Event.fetchFlag c ∉ (handleEvent siteWorld ⟨mkRequest "/index.html" none none⟩).trace) ∧
      (∀ u, Event.fetch u ∉ (handleEvent siteWorld ⟨mkRequest "/index.html" none none⟩).trace) :=
  handleEvent_static_of_not_secure siteWorld ⟨mkRequest "/index.html" none none⟩ (by decide)

/-- C5: for every request whose pathname is exactly "/secure" or "/secure/" and whose
geolocation country is present, `handleEvent` calls only `fetchUserInfo` (no asset lookup, no
outbound fetch) and returns status 200, the single header Content-Type = "text/html", and a body
containing the authenticated-user-email header value and the flag URL built from the lower-cased
country code. -/
theorem handleEvent_identity_page (w : World) (event : FetchEvent) (cf : Cf) (c : String)
    (hp : event.request.url.pathname = "/secure" ∨ event.request.url.pathname = "/secure/")
    (hcf : event.request.cf = some cf) (hc : cf.country = some c) :
    (handleEvent w event).trace = [Event.fetchUserInfo event.request] ∧
      ∃ r body, (handleEvent w event).result = .ok r ∧
        r.status = 200 ∧
        r.headers = ⟨[("Content-Type", "text/html")]⟩ ∧
        r.body = some body ∧
        (∀ v, event.request.headers.get "cf-access-authenticated-user-email" = some v →
          Contains body v) ∧
        Contains body
          ("https://pub-a0f085f9f9a74647b5b726dd329ccbdd.r2.dev/" ++ w.toLowerCase c ++ ".png") := by
  rw [handleEvent_identity w event hp]
  simp only [fetchUserInfo, hcf, hc]
  refine ⟨trivial, _, _, rfl, ?_, ?_, rfl, ?_, ?_⟩
  · simp [newResponse]
  · simp [newResponse, sameName]
  · intro v hv
    rw [hv]
    exact ⟨pageHead, " authenticated at " ++ w.now ++ " from</p>\n" ++
      "            <img src=\"" ++ flagUrl (w.toLowerCase c) ++ pageTail,
      by simp [identityPage, templateText, String.append_assoc]⟩
  · exact ⟨pageHead ++
        templateText (event.request.headers.get "cf-access-authenticated-user-email") ++
        " authenticated at " ++ w.now ++ " from</p>\n" ++ "            <img src=\"",
      pageTail, by simp [identityPage, flagUrl, flagHost, String.append_assoc]⟩

/-- C5, a witness: an authenticated request for "/secure" from Germany. -/
theorem handleEvent_identity_page_witness :
    (handleEvent siteWorld
        ⟨mkRequest "/secure" (some "user@example.com") (some ⟨some "DE"⟩)⟩).trace =
        [Event.fetchUserInfo (mkRequest "/secure" (some "user@example.com") (some ⟨some "DE"⟩))] ∧
      ∃ r body, (handleEvent siteWorld
          ⟨mkRequest "/secure" (some "user@example.com") (some ⟨some "DE"⟩)⟩).result = .ok r ∧
        r.status = 200 ∧
        r.headers = ⟨[("Content-Type", "text/html")]⟩ ∧
        r.body = some body ∧
        (∀ v, (mkRequest "/secure" (some "user@example.com") (some ⟨some "DE"⟩)).headers.get
            "cf-access-authenticated-user-email" = some v → Contains body v) ∧
        Contains body
          ("https://pub-a0f085f9f9a74647b5b726dd329ccbdd.r2.dev/" ++ siteWorld.toLowerCase "DE" ++
            ".png") :=
  handleEvent_identity_page siteWorld
    ⟨mkRequest "/secure" (some "user@example.com") (some ⟨some "DE"⟩)⟩ ⟨some "DE"⟩ "DE"
    (Or.inl rfl) rfl rfl

/-- C6: for every country string `c`, `fetchFlag c` issues exactly one outbound fetch, to the
object-storage prefix followed by the lower-cased `c` and ".png", and its response depends on
the upstream outcome alone: upstream status 200 gives status 200, Content-Type "image/png" and
the upstream body; any other upstream status gives 404 "Flag not found"; a throwing fetch gives
500 "Error fetching flag". -/
theorem fetchFlag_spec (w : World) (c : String) :
    (fetchFlag w (some c)).trace =
        [Event.fetch
          ("https://pub-a0f085f9f9a74647b5b726dd329ccbdd.r2.dev/" ++ w.toLowerCase c ++ ".png")] ∧
      (∀ up, w.fetch (flagUrl (w.toLowerCase c)) = .ok up → up.status = 200 →
        ∃ r, (fetchFlag w (some c)).result = .ok r ∧ r.status = 200 ∧
          r.headers.get "Content-Type" = some "image/png" ∧ r.body = up.body) ∧
      (∀ up, w.fetch (flagUrl (w.toLowerCase c)) = .ok up → up.status ≠ 200 →
        ∃ r, (fetchFlag w (some c)).result = .ok r ∧ r.status = 404 ∧
          r.body = some "Flag not found") ∧
      (∀ e, w.fetch (flagUrl (w.toLowerCase c)) = .error e →
        ∃ r, (fetchFlag w (some c)).result = .ok r ∧ r.status = 500 ∧
          r.body = some "Error fetching flag") ∧
      (∀ (w2 : World) (c2 : String),
        w2.fetch (flagUrl (w2.toLowerCase c2)) = w.fetch (flagUrl (w.toLowerCase c)) →
        (fetchFlag w2 (some c2)).result = (fetchFlag w (some c)).result) := by
  refine ⟨?_, ?_, ?_, ?_, ?_⟩
  · rw [fetchFlag_some]
    rfl
  · intro up hup hst
    rw [fetchFlag_some, hup]
    simp only [hst, if_true]
    exact ⟨_, rfl, rfl, rfl, rfl⟩
  · intro up hup hst
    rw [fetchFlag_some, hup]
    simp only [hst, if_false]
    exact ⟨_, rfl, rfl, rfl⟩
  · intro e he
    rw [fetchFlag_some, he]
    exact ⟨_, rfl, rfl, rfl⟩
  · intro w2 c2 heq
    rw [fetchFlag_some, fetchFlag_some, heq]

/-- C6, a witness: the flag store holds "de.png", so `fetchFlag "DE"` passes it through. -/
theorem fetchFlag_spec_witness :
    ∃ r, (fetchFlag siteWorld (some "DE")).result = .ok r ∧ r.status = 200 ∧
      r.headers.get "Content-Type" = some "image/png" ∧ r.body = some "PNG" :=
  (fetchFlag_spec siteWorld "DE").2.1 { status := 200, headers := ⟨[]⟩, body := some "PNG" }
    rfl rfl

/-- C7: when the asset lookup of a static-asset request succeeds with `page`, the response of
`handleEvent` has the body and the status of `page`, carries the five security headers with
their fixed values whatever `page` had under those names, and every other header reads as it
does on `page`. -/
theorem handleEvent_asset_success (w : World) (event : FetchEvent) (page : Response)
    (h : startsWith event.request.url.pathname "/secure" = false)
    (hpage : w.assetStore event.request false none = .ok page) :
    ∃ r, (handleEvent w event).result = .ok r ∧
      r.body = page.body ∧
      r.status = page.status ∧
      r.headers.get "X-XSS-Protection" = some "1; mode=block" ∧
      r.headers.get "X-Content-Type-Options" = some "nosniff" ∧
      r.headers.get "X-Frame-Options" = some "DENY" ∧
      r.headers.get "Referrer-Policy" = some "unsafe-url" ∧
      r.headers.get "Feature-Policy" = some "none" ∧
      ∀ n, lowerName n ∉ securityNames → r.headers.get n = page.headers.get n := by
  rw [handleEvent_static w event h, hpage]
  refine ⟨_, rfl, rfl, rfl, ?_, ?_, ?_, ?_, ?_, ?_⟩
  · simp [setSecurityHeaders, Headers.get_set, lowerName]
  · simp [setSecurityHeaders, Headers.get_set, lowerName]
  · simp [setSecurityHeaders, Headers.get_set, lowerName]
  · simp [setSecurityHeaders, Headers.get_set, lowerName]
  · simp [setSecurityHeaders, Headers.get_set, lowerName]
  · intro n hn
    simp only [securityNames, List.mem_cons, List.mem_singleton, List.not_mem_nil, or_false,
      not_or] at hn
    obtain ⟨h1, h2, h3, h4, h5⟩ := hn
    have e1 : lowerName "X-XSS-Protection" = "x-xss-protection" := by decide
    have e2 : lowerName "X-Content-Type-Options" = "x-content-type-options" := by decide
    have e3 : lowerName "X-Frame-Options" = "x-frame-options" := by decide
    have e4 : lowerName "Referrer-Policy" = "referrer-policy" := by decide
    have e5 : lowerName "Feature-Policy" = "feature-policy" := by decide
    simp only [setSecurityHeaders, Headers.get_set, e1, e2, e3, e4, e5, h1, h2, h3, h4, h5,
      if_false]

/-- C7, a witness: the store holds "/index.html". -/
theorem handleEvent_asset_success_witness :
    ∃ r, (handleEvent siteWorld ⟨mkRequest "/index.html" none none⟩).result = .ok r ∧
      r.body = (htmlAsset "<h1>home</h1>").body ∧
      r.status = (htmlAsset "<h1>home</h1>").status ∧
      r.headers.get "X-XSS-Protection" = some "1; mode=block" ∧
      r.headers.get "X-Content-Type-Options" = some "nosniff" ∧
      r.headers.get "X-Frame-Options" = some "DENY" ∧
      r.headers.get "Referrer-Policy" = some "unsafe-url" ∧
      r.headers.get "Feature-Policy" = some "none" ∧
      ∀ n, lowerName n ∉ securityNames →
        r.headers.get n = (htmlAsset "<h1>home</h1>").headers.get n :=
  handleEvent_asset_success siteWorld ⟨mkRequest "/index.html" none none⟩
    (htmlAsset "<h1>home</h1>") (by decide) rfl

/-- C8: when the primary lookup of a static-asset request fails and the fallback lookup, for the
same request aimed at `<origin>/404.html`, succeeds with `nf`, `handleEvent` makes exactly these
two lookups and returns status 404 with the body of `nf`, whatever status `nf` carried and
whatever path was requested. -/
theorem handleEvent_fallback_404 (w : World) (event : FetchEvent) (e : JsError) (nf : Response)
    (h : startsWith event.request.url.pathname "/secure" = false)
    (h1 : w.assetStore event.request false none = .error e)
    (h2 : w.assetStore event.request false
      (some { event.request with
        url := { origin := event.request.url.origin, pathname := "/404.html", search := "" } }) =
      .ok nf) :
    (handleEvent w event).trace =
        [Event.getAssetFromKV event.request false none,
         Event.getAssetFromKV event.request false
          (some { event.request with
            url := { origin := event.request.url.origin, pathname := "/404.html",
                     search := "" } })] ∧
      ∃ r, (handleEvent w event).result = .ok r ∧ r.status = 404 ∧ r.body = nf.body := by
  have h2m : w.assetStore event.request false (some (notFoundMapper event.request)) = .ok nf := h2
  rw [handleEvent_static w event h, h1, h2m]
  exact ⟨rfl, _, rfl, rfl, rfl⟩

/-- C8, a witness: the store misses "/missing.html" and holds "/404.html". -/
theorem handleEvent_fallback_404_witness :
    (handleEvent siteWorld ⟨mkRequest "/missing.html" none none⟩).trace =
        [Event.getAssetFromKV (mkRequest "/missing.html" none none) false none,
         Event.getAssetFromKV (mkRequest "/missing.html" none none) false
          (some { mkRequest "/missing.html" none none with
            url := { origin := (mkRequest "/missing.html" none none).url.origin,
                     pathname := "/404.html", search := "" } })] ∧
      ∃ r, (handleEvent siteWorld ⟨mkRequest "/missing.html" none none⟩).result = .ok r ∧
        r.status = 404 ∧ r.body = (htmlAsset "<h1>404</h1>").body :=
  handleEvent_fallback_404 siteWorld ⟨mkRequest "/missing.html" none none⟩ notFoundError
    (htmlAsset "<h1>404</h1>") (by decide) rfl rfl

/-- C9, as amended: when a static-asset request fails with an error `e` that is not an
asset-not-found miss and the `/404.html` fallback lookup fails too, `handleEvent` returns status
500 with body `e.message`, or the string form of `e` when the message is empty. -/
theorem handleEvent_unexpected_error_500 (w : World) (event : FetchEvent) (e e2 : JsError)
    (h : startsWith event.request.url.pathname "/secure" = false)
    (_hcls : e.cls ≠ ErrorClass.notFound)
    (h1 : w.assetStore event.request false none = .error e)
    (h2 : w.assetStore event.request false (some (notFoundMapper event.request)) = .error e2) :
    ∃ r, (handleEvent w event).result = .ok r ∧ r.status = 500 ∧
      r.body = some (if e.message = "" then e.str else e.message) := by
  rw [handleEvent_static w event h, h1, h2]
  exact ⟨_, rfl, rfl, rfl⟩

/-- C9, a witness: the store fails internally on both lookups. -/
theorem handleEvent_unexpected_error_500_witness :
    ∃ r, (handleEvent downWorld ⟨mkRequest "/index.html" none none⟩).result = .ok r ∧
      r.status = 500 ∧
      r.body = some (if internalError.message = "" then internalError.str
        else internalError.message) :=
  handleEvent_unexpected_error_500 downWorld ⟨mkRequest "/index.html" none none⟩ internalError
    internalError (by decide) (by decide) rfl rfl

/-- C9, as stated, fails: for the path "/%E0%A4%A" the primary lookup throws a `URIError`, not
a miss, while "/404.html" is present, and `handleEvent` answers 404 with the fallback page, not
500 with the error message. -/
theorem handleEvent_unexpected_error_gives_404 :
    brokenWorld.assetStore (mkRequest "/%E0%A4%A" none none) false none = .error uriError ∧
      uriError.cls ≠ ErrorClass.notFound ∧
      (handleEvent brokenWorld ⟨mkRequest "/%E0%A4%A" none none⟩).result =
        .ok { status := 404, headers := ⟨[]⟩, body := some "<h1>404</h1>" } ∧
      ¬ ∃ r, (handleEvent brokenWorld ⟨mkRequest "/%E0%A4%A" none none⟩).result = .ok r ∧
        r.status = 500 := by
  refine ⟨rfl, by decide, rfl, ?_⟩
  rintro ⟨r, hr, hst⟩
  have h : (handleEvent brokenWorld ⟨mkRequest "/%E0%A4%A" none none⟩).result =
      .ok { status := 404, headers := ⟨[]⟩, body := some "<h1>404</h1>" } := rfl
  rw [h] at hr
  injection hr with hr
  rw [← hr] at hst
  exact absurd hst (by decide)

/-- C10: when the primary lookup of a static-asset request fails with `e1` and the `/404.html`
fallback lookup fails with `e2`, `handleEvent` still returns a response: status 500 with body
`e1.message`, or the string form of `e1` when the message is empty; the response is the same
whatever `e2` is. -/
theorem handleEvent_fallback_failure_swallowed (w w2 : World) (event : FetchEvent)
    (e1 e2 e3 : JsError)
    (h : startsWith event.request.url.pathname "/secure" = false)
    (h1 : w.assetStore event.request false none = .error e1)
    (h2 : w.assetStore event.request false (some (notFoundMapper event.request)) = .error e2)
    (h3 : w2.assetStore event.request false none = .error e1)
    (h4 : w2.assetStore event.request false (some (notFoundMapper event.request)) = .error e3) :
    (∃ r, (handleEvent w event).result = .ok r ∧ r.status = 500 ∧
      r.body = some (if e1.message = "" then e1.str else e1.message)) ∧
    (handleEvent w2 event).result = (handleEvent w event).result := by
  rw [handleEvent_static w event h, handleEvent_static w2 event h, h1, h2, h3, h4]
  exact ⟨⟨_, rfl, rfl, rfl⟩, rfl⟩

/-- C10, a witness: the fallback lookup fails with an internal error in one world and with a
network error in the other; the response is the same. -/
theorem handleEvent_fallback_failure_swallowed_witness :
    (∃ r, (handleEvent downWorld ⟨mkRequest "/missing.html" none none⟩).result = .ok r ∧
      r.status = 500 ∧
      r.body = some (if internalError.message = "" then internalError.str
        else internalError.message)) ∧
    (handleEvent offlineWorld ⟨mkRequest "/missing.html" none none⟩).result =
      (handleEvent downWorld ⟨mkRequest "/missing.html" none none⟩).result :=
  handleEvent_fallback_failure_swallowed downWorld offlineWorld
    ⟨mkRequest "/missing.html" none none⟩ internalError internalError networkError
    (by decide) rfl rfl rfl rfl

end WorkersAssignment
